import Mathlib

/-
  Verification of the ballistic-calculator backend trajectory pipeline.

  Shallow embedding of src/backend/app: the pydantic request model with its
  field bounds and cross-field validator (models/init), the service
  BallisticsService.calculate_trajectory (services/ballistics.py) with the
  shot construction, the two solver calls, the step filter and the quantity
  extraction, and the two route handlers calculate_trajectory and
  validate_parameters (routers/ballistics.py).  Python floats are modelled
  as rationals; the external solver (py_ballisticcalc Calculator) is an
  oracle parameter whose calls are recorded in a trace.
-/

namespace BallisticCalc

/-- Drag model tag enumeration, app.models.DragModelEnum with values G1, G7. -/
inductive DragModelEnum where
  | G1
  | G7
deriving DecidableEq, Repr

/-- Drag table references TableG1 and TableG7 imported from py_ballisticcalc. -/
inductive DragTable where
  | tableG1
  | tableG7
deriving DecidableEq, Repr

/-- WeaponData: sight_height in inches, optional twist. -/
structure WeaponData where
  sight_height : ℚ
  twist : Option ℚ
deriving DecidableEq, Repr

/-- AmmoData: ballistic coefficient, drag model tag, muzzle velocity, optional weight and diameter. -/
structure AmmoData where
  bc : ℚ
  drag_model : DragModelEnum
  muzzle_velocity : ℚ
  bullet_weight : Option ℚ
  bullet_diameter : Option ℚ
deriving DecidableEq, Repr

/-- AtmosphericData: temperature F, pressure inHg, relative humidity, altitude ft. -/
structure AtmosphericData where
  temperature : ℚ
  pressure : ℚ
  humidity : ℚ
  altitude : ℚ
deriving DecidableEq, Repr

/-- WindData: speed in mph and clock-position direction. -/
structure WindData where
  speed : ℚ
  direction : ℚ
deriving DecidableEq, Repr

/-- CalculationRequest: the full request body. -/
structure CalculationRequest where
  weapon : WeaponData
  ammo : AmmoData
  atmosphere : AtmosphericData
  wind : WindData
  zero_distance : ℚ
  max_range : ℚ
  step_size : ℚ
deriving DecidableEq, Repr

/-- Bounds check for an optional field: absent fields pass, present values must lie in the closed interval. -/
def optionInBounds (lo hi : ℚ) : Option ℚ → Bool
  | none => true
  | some x => decide (lo ≤ x ∧ x ≤ hi)

/-- Pydantic field bounds of WeaponData: sight_height in 0.1..10, twist in 1..50. -/
def WeaponData.fieldsOk (w : WeaponData) : Bool :=
  decide (1/10 ≤ w.sight_height ∧ w.sight_height ≤ 10) && optionInBounds 1 50 w.twist

/-- Pydantic field bounds of AmmoData: bc in 0.1..2, muzzle_velocity in 500..5000, bullet_weight in 20..1000, bullet_diameter in 0.1..1. -/
def AmmoData.fieldsOk (a : AmmoData) : Bool :=
  decide (1/10 ≤ a.bc ∧ a.bc ≤ 2) &&
  decide (500 ≤ a.muzzle_velocity ∧ a.muzzle_velocity ≤ 5000) &&
  optionInBounds 20 1000 a.bullet_weight &&
  optionInBounds (1/10) 1 a.bullet_diameter

/-- Pydantic field bounds of AtmosphericData. -/
def AtmosphericData.fieldsOk (a : AtmosphericData) : Bool :=
  decide (-50 ≤ a.temperature ∧ a.temperature ≤ 150) &&
  decide (20 ≤ a.pressure ∧ a.pressure ≤ 35) &&
  decide (0 ≤ a.humidity ∧ a.humidity ≤ 1) &&
  decide (0 ≤ a.altitude ∧ a.altitude ≤ 20000)

/-- Pydantic field bounds of WindData: speed in 0..100, direction in 1..12. -/
def WindData.fieldsOk (w : WindData) : Bool :=
  decide (0 ≤ w.speed ∧ w.speed ≤ 100) &&
  decide (1 ≤ w.direction ∧ w.direction ≤ 12)

/-- All per-field pydantic bounds of a CalculationRequest: the nested models plus zero_distance in 25..500, max_range in 100..3000, step_size in 1..100. -/
def CalculationRequest.fieldsOk (r : CalculationRequest) : Bool :=
  r.weapon.fieldsOk && r.ammo.fieldsOk && r.atmosphere.fieldsOk && r.wind.fieldsOk &&
  decide (25 ≤ r.zero_distance ∧ r.zero_distance ≤ 500) &&
  decide (100 ≤ r.max_range ∧ r.max_range ≤ 3000) &&
  decide (1 ≤ r.step_size ∧ r.step_size ≤ 100)

/-- Pydantic construction of a CalculationRequest.  Per-field bound violations and the validate_max_range cross-field validator (which raises ValueError when max_range is at most zero_distance) both surface through the same pydantic ValidationError channel, which FastAPI reports as HTTP 422. -/
def constructRequest (r : CalculationRequest) : Except String CalculationRequest :=
  if r.fieldsOk then
    if r.max_range ≤ r.zero_distance then
      Except.error "max_range must be greater than zero_distance"
    else
      Except.ok r
  else
    Except.error "field out of bounds"

/-- Python truthiness of an optional float: None and 0.0 are falsy. -/
def pyTruthy : Option ℚ → Bool
  | none => false
  | some x => decide (x ≠ 0)

/-- Wind segment passed to the solver: Wind(Velocity.MPH(speed), Angular.OClock(direction)). -/
structure WindSegment where
  speed : ℚ
  direction : ℚ
deriving DecidableEq, Repr

/-- Weapon description handed to the solver. -/
structure WeaponDescr where
  sight_height : ℚ
  twist : Option ℚ
deriving DecidableEq, Repr

/-- Ammo description handed to the solver: drag model, muzzle velocity, powder temperature, optional bullet weight. -/
structure AmmoDescr where
  bc : ℚ
  table : DragTable
  muzzle_velocity : ℚ
  powder_temp : ℚ
  bullet_weight : Option ℚ
deriving DecidableEq, Repr

/-- Atmosphere description handed to the solver. -/
structure AtmoDescr where
  altitude : ℚ
  temperature : ℚ
  pressure : ℚ
  humidity : ℚ
deriving DecidableEq, Repr

/-- Shot description combining weapon, ammo, atmosphere and winds. -/
structure Shot where
  weapon : WeaponDescr
  ammo : AmmoDescr
  atmo : AtmoDescr
  winds : List WindSegment
deriving DecidableEq, Repr

/-- BallisticsService get_drag_table: G1 gives TableG1, G7 gives TableG7, with a dead default branch returning TableG1. -/
def getDragTable : DragModelEnum → DragTable
  | DragModelEnum.G1 => DragTable.tableG1
  | DragModelEnum.G7 => DragTable.tableG7

/-- Shot construction of calculate_trajectory, lines 40 to 77: ammo with powder temperature defaulted to the atmospheric temperature, bullet weight attached only when truthy, twist attached only when truthy, and a single wind segment attached only when the wind speed is strictly positive. -/
def buildShot (r : CalculationRequest) : Shot :=
  { weapon :=
      { sight_height := r.weapon.sight_height
        twist := if pyTruthy r.weapon.twist then r.weapon.twist else none }
    ammo :=
      { bc := r.ammo.bc
        table := getDragTable r.ammo.drag_model
        muzzle_velocity := r.ammo.muzzle_velocity
        powder_temp := r.atmosphere.temperature
        bullet_weight := if pyTruthy r.ammo.bullet_weight then r.ammo.bullet_weight else none }
    atmo :=
      { altitude := r.atmosphere.altitude
        temperature := r.atmosphere.temperature
        pressure := r.atmosphere.pressure
        humidity := r.atmosphere.humidity }
    winds :=
      if 0 < r.wind.speed then
        [{ speed := r.wind.speed, direction := r.wind.direction }]
      else
        [] }

/-- Arguments of the Calculator.fire call. -/
structure FireArgs where
  trajectory_range : ℚ
  trajectory_step : ℚ
  extra_data : Bool
deriving DecidableEq, Repr

/-- The fire arguments built in calculate_trajectory, lines 88 to 99: trajectory_range is the request max_range, trajectory_step is the request step_size, extra_data is true. -/
def fireArgs (r : CalculationRequest) : FireArgs :=
  { trajectory_range := r.max_range
    trajectory_step := r.step_size
    extra_data := true }

/-- Raw trajectory point emitted by the solver.  Field names vary across solver versions, so each candidate attribute is optional; values are stored already converted to the units the service reads them in (distance in yards, linear quantities in inches, velocity in fps, energy in foot-pounds, adjustments in mils). -/
structure RawPoint where
  distance : ℚ
  height : Option ℚ := none
  slant_height : Option ℚ := none
  y : Option ℚ := none
  drop : Option ℚ := none
  windage : Option ℚ := none
  z : Option ℚ := none
  velocity : ℚ
  energy : Option ℚ := none
  time : ℚ
  drop_adj : Option ℚ := none
  drop_adjustment : Option ℚ := none
  windage_adj : Option ℚ := none
  windage_adjustment : Option ℚ := none
deriving DecidableEq, Repr

/-- The external solver oracle: set_weapon_zero returns the zero adjustment, fire returns the raw point list; either call may fail with a diagnostic string. -/
structure Solver where
  zero : Shot → ℚ → Except String ℚ
  fire : Shot → FireArgs → Except String (List RawPoint)

/-- Record of the solver calls a pipeline run performed. -/
structure SolverTrace where
  zeroCalls : List (Shot × ℚ)
  fireCalls : List (Shot × FireArgs)
deriving DecidableEq, Repr

/-- Python float modulo for the positive divisors used here: d minus s times the floor of d over s. -/
def pyMod (d s : ℚ) : ℚ := d - s * ((⌊d / s⌋ : ℤ) : ℚ)

/-- The step filter condition of calculate_trajectory line 116: distance equals 0.0 exactly, or distance modulo step_size equals 0.0 exactly. -/
def keepPoint (step_size d : ℚ) : Bool :=
  decide (d = 0 ∨ pyMod d step_size = 0)

/-- The trajectory down-sampling loop of calculate_trajectory lines 112 to 117. -/
def filterTrajectory (step_size : ℚ) (pts : List RawPoint) : List RawPoint :=
  pts.filter (fun p => keepPoint step_size p.distance)

/-- Energy extraction of convert_trajectory_points lines 161 to 176: read the energy attribute when present (absent reads as 0), then, when that value is 0 and the bullet weight is truthy, fall back to the manual kinetic energy 0.5 times weight over 7000 times velocity squared over 32.174. -/
def extractEnergy (r : CalculationRequest) (p : RawPoint) : ℚ :=
  let energy : ℚ :=
    match p.energy with
    | some e => e
    | none => 0
  if energy = 0 ∧ pyTruthy r.ammo.bullet_weight = true then
    match r.ammo.bullet_weight with
    | some w => 1/2 * (w / 7000) * p.velocity ^ 2 / (32174/1000)
    | none => 0
  else
    energy

/-- Drop extraction of convert_trajectory_points lines 192 to 201: candidate attributes probed in the order height, slant_height, y, drop; the first present wins, default 0. -/
def extractDrop (p : RawPoint) : ℚ :=
  match p.height with
  | some v => v
  | none =>
    match p.slant_height with
    | some v => v
    | none =>
      match p.y with
      | some v => v
      | none =>
        match p.drop with
        | some v => v
        | none => 0

/-- Modelled from the spec sentence of section 4.4 for comparison with extractDrop: candidate fields probed in the priority order drop, height, slant_height, y; first present field wins, default 0. -/
def specOrderDrop (p : RawPoint) : ℚ :=
  match p.drop with
  | some v => v
  | none =>
    match p.height with
    | some v => v
    | none =>
      match p.slant_height with
      | some v => v
      | none =>
        match p.y with
        | some v => v
        | none => 0

/-- Windage extraction, lines 204 to 208: windage then z, default 0. -/
def extractWindage (p : RawPoint) : ℚ :=
  match p.windage with
  | some v => v
  | none =>
    match p.z with
    | some v => v
    | none => 0

/-- Drop adjustment extraction, lines 179 to 183: drop_adj then drop_adjustment, default 0. -/
def extractDropAdj (p : RawPoint) : ℚ :=
  match p.drop_adj with
  | some v => v
  | none =>
    match p.drop_adjustment with
    | some v => v
    | none => 0

/-- Windage adjustment extraction, lines 186 to 190: windage_adj then windage_adjustment, default 0. -/
def extractWindageAdj (p : RawPoint) : ℚ :=
  match p.windage_adj with
  | some v => v
  | none =>
    match p.windage_adjustment with
    | some v => v
    | none => 0

/-- Canonical output trajectory point, app.models.TrajectoryPoint. -/
structure TrajectoryPoint where
  distance : ℚ
  drop : ℚ
  windage : ℚ
  velocity : ℚ
  energy : ℚ
  time : ℚ
  drop_adjustment : ℚ
  windage_adjustment : ℚ
deriving DecidableEq, Repr

/-- The conversion loop of convert_trajectory_points. -/
def convertTrajectoryPoints (r : CalculationRequest) (pts : List RawPoint) : List TrajectoryPoint :=
  pts.map (fun p =>
    { distance := p.distance
      drop := extractDrop p
      windage := extractWindage p
      velocity := p.velocity
      energy := extractEnergy r p
      time := p.time
      drop_adjustment := extractDropAdj p
      windage_adjustment := extractWindageAdj p })

/-- CalculationResponse, app.models. -/
structure CalculationResponse where
  trajectory : List TrajectoryPoint
  zero_adjustment : ℚ
  success : Bool
  message : String
deriving DecidableEq, Repr

/-- Python exceptions the request path distinguishes: ValueError and HTTPException. -/
inductive PyError where
  | valueError (msg : String)
  | httpException (status : Nat) (detail : String)
deriving DecidableEq, Repr

/-- BallisticsService.calculate_trajectory with a solver-call trace.  The whole body sits in one try block whose except clause re-raises every exception as ValueError with the text Calculation error: followed by the original message (lines 141 to 143); the modelled failure sources are the two solver calls.  On success the response carries the filtered, converted points, the zero adjustment in mils, success true and the fixed message. -/
def calculateTrajectoryT (s : Solver) (r : CalculationRequest) :
    Except PyError CalculationResponse × SolverTrace :=
  match s.zero (buildShot r) r.zero_distance with
  | Except.error e =>
      (Except.error (PyError.valueError ("Calculation error: " ++ e)),
       { zeroCalls := [(buildShot r, r.zero_distance)], fireCalls := [] })
  | Except.ok adj =>
      match s.fire (buildShot r) (fireArgs r) with
      | Except.error e =>
          (Except.error (PyError.valueError ("Calculation error: " ++ e)),
           { zeroCalls := [(buildShot r, r.zero_distance)]
             fireCalls := [(buildShot r, fireArgs r)] })
      | Except.ok pts =>
          (Except.ok
            { trajectory := convertTrajectoryPoints r (filterTrajectory r.step_size pts)
              zero_adjustment := adj
              success := true
              message := "Calculation completed successfully" },
           { zeroCalls := [(buildShot r, r.zero_distance)]
             fireCalls := [(buildShot r, fireArgs r)] })

/-- The service result alone. -/
def calculateTrajectory (s : Solver) (r : CalculationRequest) :
    Except PyError CalculationResponse :=
  (calculateTrajectoryT s r).1

/-- Configured ceiling settings.MAX_RANGE_YARDS. -/
def MAX_RANGE_YARDS : ℚ := 3000

/-- Configured ceiling settings.MAX_STEP_SIZE. -/
def MAX_STEP_SIZE : ℚ := 100

/-- Outcome of a route handler: a response or an HTTP error status with detail. -/
inductive HttpResult where
  | ok (resp : CalculationResponse)
  | error (status : Nat) (detail : String)
deriving DecidableEq, Repr

/-- The calculate route handler with trace, routers/ballistics.py lines 38 to 71.  The two range checks raise HTTPException inside the try block; a ValueError escaping the service is caught and becomes a 400 with the ValueError text as detail; any other exception, including the range-check HTTPException itself, is caught by the second except clause and becomes a 500 with a generic detail. -/
def routeCalculateT (s : Solver) (r : CalculationRequest) : HttpResult × SolverTrace :=
  if MAX_RANGE_YARDS < r.max_range then
    (HttpResult.error 500 "An unexpected error occurred during calculation",
     { zeroCalls := [], fireCalls := [] })
  else if MAX_STEP_SIZE < r.step_size then
    (HttpResult.error 500 "An unexpected error occurred during calculation",
     { zeroCalls := [], fireCalls := [] })
  else
    match calculateTrajectoryT s r with
    | (Except.ok resp, tr) => (HttpResult.ok resp, tr)
    | (Except.error (PyError.valueError m), tr) => (HttpResult.error 400 m, tr)
    | (Except.error (PyError.httpException _ _), tr) =>
        (HttpResult.error 500 "An unexpected error occurred during calculation", tr)

/-- The calculate route handler result alone. -/
def routeCalculate (s : Solver) (r : CalculationRequest) : HttpResult :=
  (routeCalculateT s r).1

/-- The full calculate endpoint: pydantic construction first (failure surfaces as HTTP 422 with the validation message), then the route handler. -/
def apiCalculateT (s : Solver) (r : CalculationRequest) : HttpResult × SolverTrace :=
  match constructRequest r with
  | Except.error m => (HttpResult.error 422 m, { zeroCalls := [], fireCalls := [] })
  | Except.ok req => routeCalculateT s req

/-- The full calculate endpoint result alone. -/
def apiCalculate (s : Solver) (r : CalculationRequest) : HttpResult :=
  (apiCalculateT s r).1

/-- Python int truncation toward zero on a rational. -/
def pyTrunc (x : ℚ) : ℤ := if 0 ≤ x then ⌊x⌋ else ⌈x⌉

/-- Outcome of the validate endpoint. -/
inductive ValidateResult where
  | ok (valid : Bool) (message : String) (estimated_points : ℤ)
  | error (status : Nat) (detail : String)
deriving DecidableEq, Repr

/-- The validate route handler, routers/ballistics.py lines 93 to 116: an explicit range check (re-raised by the blanket except as a 400 whose detail is the string form of the HTTPException), then the point estimate int of max_range minus zero_distance over step_size, plus one. -/
def routeValidate (r : CalculationRequest) : ValidateResult :=
  if r.max_range ≤ r.zero_distance then
    ValidateResult.error 400 "400: Maximum range must be greater than zero distance"
  else
    ValidateResult.ok true "Parameters are valid"
      (pyTrunc ((r.max_range - r.zero_distance) / r.step_size) + 1)

/-- The full validate endpoint: pydantic construction (422 on failure) then the handler. -/
def apiValidate (r : CalculationRequest) : ValidateResult :=
  match constructRequest r with
  | Except.error m => ValidateResult.error 422 m
  | Except.ok req => routeValidate req

/-- A concrete valid request matching the end-to-end scenario of the spec: bc 0.5, G1, muzzle velocity 2800 fps, zero distance 100 yd, max range 500 yd, step 25 yd, bullet weight 150 gr, wind 10 mph at 3 oclock. -/
def reqStd : CalculationRequest :=
  { weapon := { sight_height := 2, twist := some 12 }
    ammo :=
      { bc := 1/2
        drag_model := DragModelEnum.G1
        muzzle_velocity := 2800
        bullet_weight := some 150
        bullet_diameter := none }
    atmosphere := { temperature := 59, pressure := 2992/100, humidity := 1/2, altitude := 0 }
    wind := { speed := 10, direction := 3 }
    zero_distance := 100
    max_range := 500
    step_size := 25 }

/-- The request of the business-rule scenario: zero_distance 100, max_range 100, all field bounds satisfied. -/
def req100 : CalculationRequest :=
  { reqStd with max_range := 100 }

/-- A concrete raw muzzle point. -/
def pt0 : RawPoint :=
  { distance := 0, velocity := 2800, time := 0 }

/-- A raw point whose distance 24.9995 is within one thousandth of the step 25 but not exactly on step. -/
def ptNear : RawPoint :=
  { distance := 49999/2000, velocity := 2600, time := 3/100 }

/-- A raw point exactly at 25 yards. -/
def pt25 : RawPoint :=
  { distance := 25, velocity := 2700, time := 3/100 }

/-- A raw point carrying both a drop attribute and a height attribute. -/
def ptBoth : RawPoint :=
  { distance := 100, height := some 2, drop := some 1, velocity := 2500, time := 1/10 }

/-- A raw point reporting zero energy at 2800 fps, for the energy fallback scenario. -/
def ptE : RawPoint :=
  { distance := 100, velocity := 2800, energy := some 0, time := 1/10 }

/-- A solver that answers every zero call with adjustment 1 and every fire call with a fixed point list. -/
def solverConst (pts : List RawPoint) : Solver :=
  { zero := fun _ _ => Except.ok 1
    fire := fun _ _ => Except.ok pts }

/-- A solver whose zero call fails with an internal diagnostic. -/
def solverZeroFail : Solver :=
  { zero := fun _ _ => Except.error "RuntimeError: zero divergence at internal step 7"
    fire := fun _ _ => Except.ok [] }

/-- A solver whose fire call fails with an internal diagnostic. -/
def solverFireFail : Solver :=
  { zero := fun _ _ => Except.ok 2
    fire := fun _ _ => Except.error "OutOfRangeError: time step underflow" }

/-- Modelled from the spec sentence of section 4.3: the tolerance-based on-step test with absolute tolerance eps, for comparison with keepPoint. -/
def specOnStep (eps step_size d : ℚ) : Prop :=
  d = 0 ∨ |pyMod d step_size| < eps ∨ |pyMod d step_size - step_size| < eps

/-- A raw point belongs to the filtered stream exactly when it belongs to the input and its distance is 0 or its distance modulo the step is 0. -/
theorem mem_filterTrajectory (step_size : ℚ) (pts : List RawPoint) (p : RawPoint) :
    p ∈ filterTrajectory step_size pts ↔
      p ∈ pts ∧ (p.distance = 0 ∨ pyMod p.distance step_size = 0) := by
  simp [filterTrajectory, List.mem_filter, keepPoint]

/-- Truncation agrees with floor on nonnegative rationals. -/
theorem pyTrunc_of_nonneg (x : ℚ) (hx : 0 ≤ x) : pyTrunc x = ⌊x⌋ := by
  simp [pyTrunc, hx]

/-- C1 counterexample: running the pipeline on the standard request records a fire call whose trajectory_step is 25, exactly the step size the caller requested, refuting the claim that the fire call uses a solver-minimum or adaptive step rather than the caller step_size. -/
theorem C1_counterexample :
    ((calculateTrajectoryT (solverConst [pt0]) reqStd).2.fireCalls.map
        (fun c => c.2.trajectory_step)) = [25] ∧
    reqStd.step_size = 25 := by
  exact ⟨rfl, rfl⟩

/-- C1 corrected: for every validated request on which both solver calls succeed, the fire call is made on the built shot with trajectory_range equal to the request max_range, trajectory_step equal to the caller requested step_size, and extra_data true; down-sampling to the step grid is performed afterwards by the filter on the fire output. -/
theorem C1_fire_args (s : Solver) (r : CalculationRequest) (adj : ℚ) (pts : List RawPoint)
    (hz : s.zero (buildShot r) r.zero_distance = Except.ok adj)
    (hf : s.fire (buildShot r) (fireArgs r) = Except.ok pts) :
    (calculateTrajectoryT s r).2.fireCalls =
      [(buildShot r,
        { trajectory_range := r.max_range
          trajectory_step := r.step_size
          extra_data := true })] ∧
    (calculateTrajectoryT s r).1 =
      Except.ok
        { trajectory := convertTrajectoryPoints r (filterTrajectory r.step_size pts)
          zero_adjustment := adj
          success := true
          message := "Calculation completed successfully" } := by
  unfold calculateTrajectoryT
  rw [hz, hf]
  exact ⟨rfl, rfl⟩

/-- C1 witness: the corrected statement instantiated on the standard request and a constant solver. -/
theorem C1_fire_args_witness :
    (calculateTrajectoryT (solverConst [pt0]) reqStd).2.fireCalls =
      [(buildShot reqStd,
        { trajectory_range := reqStd.max_range
          trajectory_step := reqStd.step_size
          extra_data := true })] ∧
    (calculateTrajectoryT (solverConst [pt0]) reqStd).1 =
      Except.ok
        { trajectory := convertTrajectoryPoints reqStd (filterTrajectory reqStd.step_size [pt0])
          zero_adjustment := 1
          success := true
          message := "Calculation completed successfully" } :=
  C1_fire_args (solverConst [pt0]) reqStd 1 [pt0] rfl rfl

/-- C2 counterexample: the distance 24.9995 is on-step for step 25 under the spec tolerance test with eps one thousandth, yet the code filter drops the point — the code compares with exact equality, not a tolerance. -/
theorem C2_counterexample :
    specOnStep (1/1000) 25 ptNear.distance ∧
    keepPoint 25 ptNear.distance = false ∧
    filterTrajectory 25 [ptNear] = [] := by
  have hfloor : ⌊ptNear.distance / 25⌋ = 0 := by
    rw [Int.floor_eq_zero_iff, Set.mem_Ico]
    constructor <;> norm_num [ptNear]
  have hm : pyMod ptNear.distance 25 = 49999/2000 := by
    simp only [pyMod, hfloor]
    norm_num [ptNear]
  have hk : keepPoint 25 ptNear.distance = false := by
    simp only [keepPoint, decide_eq_false_iff_not]
    push_neg
    refine ⟨?_, ?_⟩
    · norm_num [ptNear]
    · rw [hm]
      norm_num
  refine ⟨?_, hk, ?_⟩
  · unfold specOnStep
    right
    right
    rw [hm]
    have habs : |(49999/2000 : ℚ) - 25| = 1/2000 := by
      rw [abs_sub_comm]
      rw [abs_of_nonneg (by norm_num : (0:ℚ) ≤ 25 - 49999/2000)]
      norm_num
    rw [habs]
    norm_num
  · simp [filterTrajectory, hk]

/-- C2 corrected: the sampler keeps a raw point exactly when its distance is 0 or its distance modulo step_size is exactly 0; the on-step comparison is exact equality with no tolerance. -/
theorem C2_exact_step_filter (step_size : ℚ) (pts : List RawPoint) (p : RawPoint) :
    p ∈ filterTrajectory step_size pts ↔
      p ∈ pts ∧ (p.distance = 0 ∨ pyMod p.distance step_size = 0) := by
  simp [filterTrajectory, List.mem_filter, keepPoint]

/-- C5 counterexample: on a raw point carrying both drop 1 and height 2 the extractor returns the height value 2, while the spec priority order with drop first would return 1. -/
theorem C5_counterexample :
    ptBoth.drop = some 1 ∧ ptBoth.height = some 2 ∧
    extractDrop ptBoth = 2 ∧ specOrderDrop ptBoth = 1 := by
  exact ⟨rfl, rfl, rfl, rfl⟩

/-- C5 corrected: the drop value is determined by probing candidate fields in the priority order height, slant_height, y, drop — the first present field wins — and yields 0 when none of the four is present. -/
theorem C5_drop_priority (p : RawPoint) :
    (∀ v, p.height = some v → extractDrop p = v) ∧
    (p.height = none → ∀ v, p.slant_height = some v → extractDrop p = v) ∧
    (p.height = none → p.slant_height = none → ∀ v, p.y = some v → extractDrop p = v) ∧
    (p.height = none → p.slant_height = none → p.y = none →
      ∀ v, p.drop = some v → extractDrop p = v) ∧
    (p.height = none → p.slant_height = none → p.y = none → p.drop = none →
      extractDrop p = 0) := by
  unfold extractDrop
  refine ⟨?_, ?_, ?_, ?_, ?_⟩ <;> intros <;> simp_all

/-- C5 witness: the corrected statement instantiated on the point carrying both drop and height. -/
theorem C5_drop_priority_witness : extractDrop ptBoth = 2 :=
  (C5_drop_priority ptBoth).1 2 rfl

/-- The standard request passes every pydantic field bound. -/
theorem reqStd_fieldsOk : reqStd.fieldsOk = true := by
  norm_num [reqStd, CalculationRequest.fieldsOk, WeaponData.fieldsOk, AmmoData.fieldsOk,
    AtmosphericData.fieldsOk, WindData.fieldsOk, optionInBounds]

/-- The business-rule scenario request passes every pydantic field bound. -/
theorem req100_fieldsOk : req100.fieldsOk = true := by
  norm_num [req100, reqStd, CalculationRequest.fieldsOk, WeaponData.fieldsOk, AmmoData.fieldsOk,
    AtmosphericData.fieldsOk, WindData.fieldsOk, optionInBounds]

/-- C3 counterexample: the request with zero_distance 100 and max_range 100 is rejected at pydantic construction time, surfacing as the 422 validation-error kind shared with field bound violations rather than as a distinct 400 business-rule error, and no solver call is recorded. -/
theorem C3_counterexample :
    apiCalculateT solverZeroFail req100 =
      (HttpResult.error 422 "max_range must be greater than zero_distance",
       { zeroCalls := [], fireCalls := [] }) := by
  unfold apiCalculateT constructRequest
  rw [req100_fieldsOk]
  norm_num [req100, reqStd]

/-- C3 corrected: a request whose fields satisfy their bounds but whose max_range is at most zero_distance is rejected before any solver call, but through the construction-time pydantic validator — the same 422 validation-error kind as field-level bound violations — not through a distinct business-rule error path; the solver is never invoked, for every solver. -/
theorem C3_construct_reject (s : Solver) (r : CalculationRequest)
    (hok : r.fieldsOk = true) (hle : r.max_range ≤ r.zero_distance) :
    apiCalculateT s r =
      (HttpResult.error 422 "max_range must be greater than zero_distance",
       { zeroCalls := [], fireCalls := [] }) := by
  unfold apiCalculateT constructRequest
  rw [hok]
  simp [hle]

/-- C3 witness: the corrected statement instantiated on the concrete business-rule scenario request and a concrete solver. -/
theorem C3_construct_reject_witness :
    apiCalculateT solverFireFail req100 =
      (HttpResult.error 422 "max_range must be greater than zero_distance",
       { zeroCalls := [], fireCalls := [] }) :=
  C3_construct_reject solverFireFail req100 req100_fieldsOk (by norm_num [req100, reqStd])

/-- C4 counterexample: when the solver zero call fails with an internal diagnostic, the surfaced 400 detail is the prefix Calculation error: followed by that exact diagnostic text, so the internal diagnostic is included in the client-facing message, refuting the no-leak part of the claim. -/
theorem C4_counterexample :
    routeCalculate solverZeroFail reqStd =
      HttpResult.error 400
        ("Calculation error: " ++ "RuntimeError: zero divergence at internal step 7") := by
  unfold routeCalculate routeCalculateT calculateTrajectoryT solverZeroFail
  norm_num [reqStd, MAX_RANGE_YARDS, MAX_STEP_SIZE]

/-- C4 corrected: for every request within the configured ceilings, a solver failure during zero-solve or fire is surfaced to the caller as a 400 whose detail embeds the solver diagnostic text after the prefix Calculation error: — the internal text is included, not suppressed — and the solver is called at most once for each phase, never retried. -/
theorem C4_failure_surface (s : Solver) (r : CalculationRequest) (e : String)
    (hrange : r.max_range ≤ MAX_RANGE_YARDS) (hstep : r.step_size ≤ MAX_STEP_SIZE)
    (hfail : s.zero (buildShot r) r.zero_distance = Except.error e ∨
      (∃ adj, s.zero (buildShot r) r.zero_distance = Except.ok adj ∧
        s.fire (buildShot r) (fireArgs r) = Except.error e)) :
    routeCalculate s r = HttpResult.error 400 ("Calculation error: " ++ e) ∧
    (calculateTrajectoryT s r).2.zeroCalls.length = 1 ∧
    (calculateTrajectoryT s r).2.fireCalls.length ≤ 1 := by
  have hnr : ¬ (MAX_RANGE_YARDS < r.max_range) := not_lt.mpr hrange
  have hns : ¬ (MAX_STEP_SIZE < r.step_size) := not_lt.mpr hstep
  rcases hfail with hz | ⟨adj, hz, hf⟩
  · unfold routeCalculate routeCalculateT calculateTrajectoryT
    rw [hz]
    simp [hnr, hns]
  · unfold routeCalculate routeCalculateT calculateTrajectoryT
    rw [hz, hf]
    simp [hnr, hns]

/-- C4 witness: the corrected statement instantiated on the zero-failing solver and the standard request. -/
theorem C4_failure_surface_witness :
    routeCalculate solverZeroFail reqStd =
      HttpResult.error 400
        ("Calculation error: " ++ "RuntimeError: zero divergence at internal step 7") ∧
    (calculateTrajectoryT solverZeroFail reqStd).2.zeroCalls.length = 1 ∧
    (calculateTrajectoryT solverZeroFail reqStd).2.fireCalls.length ≤ 1 :=
  C4_failure_surface solverZeroFail reqStd "RuntimeError: zero divergence at internal step 7"
    (by norm_num [reqStd, MAX_RANGE_YARDS]) (by norm_num [reqStd, MAX_STEP_SIZE])
    (Or.inl rfl)

/-- C6 confirmed: the extracted energy uses a present non-zero solver energy value as is; when the reported energy is absent or zero and the request carries a bullet weight within its declared bound, the energy equals one half times weight over 7000 times velocity squared over 32.174 foot pounds; when the bullet weight is absent the energy is 0. -/
theorem C6_energy (r : CalculationRequest) (p : RawPoint) :
    (∀ e, p.energy = some e → e ≠ 0 → extractEnergy r p = e) ∧
    ((p.energy = none ∨ p.energy = some 0) →
      ∀ w, r.ammo.bullet_weight = some w → 20 ≤ w →
        extractEnergy r p = 1/2 * (w / 7000) * p.velocity ^ 2 / (32174/1000)) ∧
    ((p.energy = none ∨ p.energy = some 0) → r.ammo.bullet_weight = none →
      extractEnergy r p = 0) := by
  refine ⟨?_, ?_, ?_⟩
  · intro e he hne
    unfold extractEnergy
    rw [he]
    simp [hne]
  · intro hE w hw hwb
    have hwne : w ≠ 0 := (lt_of_lt_of_le (by norm_num : (0:ℚ) < 20) hwb).ne'
    unfold extractEnergy pyTruthy
    rw [hw]
    rcases hE with h | h <;> rw [h] <;> simp [hwne]
  · intro hE hw
    unfold extractEnergy pyTruthy
    rw [hw]
    rcases hE with h | h <;> rw [h] <;> simp

/-- C6 witness: the energy fallback on the zero-energy point at 2800 fps with the 150 grain request, matching the spec example formula. -/
theorem C6_energy_witness :
    extractEnergy reqStd ptE = 1/2 * ((150:ℚ) / 7000) * 2800 ^ 2 / (32174/1000) :=
  (C6_energy reqStd ptE).2.1 (Or.inr rfl) 150 rfl (by norm_num)

/-- C7 confirmed: when the raw solver stream starts at the muzzle and lies inside the interval from 0 to max_range, the first converted sampled point has distance 0, every sampled distance is an exact natural multiple of the step size (hence within any tolerance of one), and no sampled distance exceeds max_range. -/
theorem C7_sampled_grid (r : CalculationRequest) (pts : List RawPoint) (p0 : RawPoint)
    (hhead : pts.head? = some p0) (h0 : p0.distance = 0)
    (hcov : ∀ p ∈ pts, 0 ≤ p.distance ∧ p.distance ≤ r.max_range)
    (hstep : 0 < r.step_size) :
    ((convertTrajectoryPoints r (filterTrajectory r.step_size pts)).head?.map
        (fun q => q.distance)) = some 0 ∧
    (∀ q ∈ convertTrajectoryPoints r (filterTrajectory r.step_size pts),
      (∃ k : ℕ, q.distance = (k : ℚ) * r.step_size) ∧ q.distance ≤ r.max_range) := by
  constructor
  · obtain ⟨rest, hrest⟩ : ∃ rest, pts = p0 :: rest := by
      cases pts with
      | nil => simp at hhead
      | cons a l =>
        simp at hhead
        exact ⟨l, by rw [hhead]⟩
    subst hrest
    have hk : keepPoint r.step_size 0 = true := by
      simp [keepPoint]
    simp [convertTrajectoryPoints, filterTrajectory, List.filter_cons, h0, hk]
  · intro q hq
    simp only [convertTrajectoryPoints, List.mem_map] at hq
    obtain ⟨p, hp, rfl⟩ := hq
    rw [mem_filterTrajectory] at hp
    obtain ⟨hmem, hcond⟩ := hp
    obtain ⟨hge, hle⟩ := hcov p hmem
    refine ⟨?_, hle⟩
    rcases hcond with h | h
    · exact ⟨0, by simp [h]⟩
    · have hfe : p.distance = ((⌊p.distance / r.step_size⌋ : ℤ) : ℚ) * r.step_size := by
        unfold pyMod at h
        linarith
      have hfnn : 0 ≤ ⌊p.distance / r.step_size⌋ :=
        Int.le_floor.mpr (by exact_mod_cast div_nonneg hge hstep.le)
      refine ⟨(⌊p.distance / r.step_size⌋).toNat, ?_⟩
      have hcast : (((⌊p.distance / r.step_size⌋).toNat : ℕ) : ℚ) =
          ((⌊p.distance / r.step_size⌋ : ℤ) : ℚ) := by
        exact_mod_cast Int.toNat_of_nonneg hfnn
      rw [hcast]
      exact hfe

/-- C7 witness: the sampler and extractor on a concrete stream holding the muzzle point, an off-step point and the 25 yard point, under the standard request. -/
theorem C7_sampled_grid_witness :
    ((convertTrajectoryPoints reqStd
        (filterTrajectory reqStd.step_size [pt0, ptNear, pt25])).head?.map
        (fun q => q.distance)) = some 0 ∧
    (∀ q ∈ convertTrajectoryPoints reqStd
        (filterTrajectory reqStd.step_size [pt0, ptNear, pt25]),
      (∃ k : ℕ, q.distance = (k : ℚ) * reqStd.step_size) ∧ q.distance ≤ reqStd.max_range) :=
  C7_sampled_grid reqStd [pt0, ptNear, pt25] pt0 rfl rfl
    (by
      intro p hp
      simp only [List.mem_cons, List.not_mem_nil, or_false] at hp
      rcases hp with rfl | rfl | rfl <;>
        constructor <;> norm_num [pt0, ptNear, pt25, reqStd])
    (by norm_num [reqStd])

/-- C8 confirmed: the shot passed to the solver carries exactly the single requested wind segment when the wind speed is strictly positive, and carries no wind segment at all when the wind speed is 0. -/
theorem C8_wind_segment (r : CalculationRequest) :
    (0 < r.wind.speed →
      (buildShot r).winds = [{ speed := r.wind.speed, direction := r.wind.direction }]) ∧
    (r.wind.speed = 0 → (buildShot r).winds = []) := by
  constructor
  · intro h
    simp [buildShot, h]
  · intro h
    simp [buildShot, h]

/-- C8 witness: the standard request has wind speed 10, so its shot carries the single wind segment. -/
theorem C8_wind_segment_witness :
    (buildShot reqStd).winds =
      [{ speed := reqStd.wind.speed, direction := reqStd.wind.direction }] :=
  (C8_wind_segment reqStd).1 (by norm_num [reqStd])

/-- C9 confirmed: whenever the validate endpoint accepts a request, the returned estimated_points equals the floor of max_range minus zero_distance over step_size, plus one. -/
theorem C9_estimated_points (r : CalculationRequest) (v : Bool) (m : String) (n : ℤ)
    (h : apiValidate r = ValidateResult.ok v m n) :
    n = ⌊(r.max_range - r.zero_distance) / r.step_size⌋ + 1 := by
  unfold apiValidate constructRequest routeValidate at h
  by_cases hok : r.fieldsOk = true
  · by_cases hle : r.max_range ≤ r.zero_distance
    · simp [hok, hle] at h
    · simp only [hok, if_true, if_neg hle, ValidateResult.ok.injEq] at h
      obtain ⟨hv, hm, hn⟩ := h
      have hstep : 1 ≤ r.step_size := by
        have h1 := hok
        simp only [CalculationRequest.fieldsOk, Bool.and_eq_true, decide_eq_true_eq] at h1
        exact h1.2.1
      have hpos : (0:ℚ) ≤ (r.max_range - r.zero_distance) / r.step_size :=
        div_nonneg (by linarith [not_le.mp hle]) (by linarith)
      rw [← hn, pyTrunc_of_nonneg _ hpos]
  · simp [hok] at h

/-- C9 witness: the standard request yields 17 estimated points, the floor of 400 over 25 plus one. -/
theorem C9_estimated_points_witness :
    (17 : ℤ) = ⌊(reqStd.max_range - reqStd.zero_distance) / reqStd.step_size⌋ + 1 :=
  C9_estimated_points reqStd true "Parameters are valid" 17
    (by
      unfold apiValidate constructRequest routeValidate
      rw [reqStd_fieldsOk]
      norm_num [reqStd, pyTrunc])

/-- C10 confirmed: every modelled failure inside calculate_trajectory is re-raised as a ValueError whose message embeds the original diagnostic after the prefix Calculation error: , and the route boundary maps it to the 400 client-error class; for a request within the configured ceilings every error outcome of the route has status 400, so no pipeline failure reaches the distinct 500 branch. -/
theorem C10_error_channel (s : Solver) (r : CalculationRequest)
    (hrange : r.max_range ≤ MAX_RANGE_YARDS) (hstep : r.step_size ≤ MAX_STEP_SIZE) :
    (∀ e, (s.zero (buildShot r) r.zero_distance = Except.error e ∨
        (∃ adj, s.zero (buildShot r) r.zero_distance = Except.ok adj ∧
          s.fire (buildShot r) (fireArgs r) = Except.error e)) →
      calculateTrajectory s r =
        Except.error (PyError.valueError ("Calculation error: " ++ e)) ∧
      routeCalculate s r = HttpResult.error 400 ("Calculation error: " ++ e)) ∧
    (∀ st d, routeCalculate s r = HttpResult.error st d → st = 400) := by
  have hnr : ¬ (MAX_RANGE_YARDS < r.max_range) := not_lt.mpr hrange
  have hns : ¬ (MAX_STEP_SIZE < r.step_size) := not_lt.mpr hstep
  constructor
  · intro e hfail
    rcases hfail with hz | ⟨adj, hz, hf⟩
    · unfold calculateTrajectory routeCalculate routeCalculateT calculateTrajectoryT
      rw [hz]
      simp [hnr, hns]
    · unfold calculateTrajectory routeCalculate routeCalculateT calculateTrajectoryT
      rw [hz, hf]
      simp [hnr, hns]
  · intro st d hroute
    unfold routeCalculate routeCalculateT calculateTrajectoryT at hroute
    rw [if_neg hnr, if_neg hns] at hroute
    rcases hzc : s.zero (buildShot r) r.zero_distance with e | adj
    · rw [hzc] at hroute
      simp [HttpResult.error.injEq] at hroute
      omega
    · rcases hfc : s.fire (buildShot r) (fireArgs r) with e | pts
      · rw [hzc, hfc] at hroute
        simp [HttpResult.error.injEq] at hroute
        omega
      · rw [hzc, hfc] at hroute
        simp at hroute

/-- C10 witness: the fire-failing solver on the standard request surfaces the embedded diagnostic as a ValueError mapped to 400. -/
theorem C10_error_channel_witness :
    calculateTrajectory solverFireFail reqStd =
      Except.error
        (PyError.valueError ("Calculation error: " ++ "OutOfRangeError: time step underflow")) ∧
    routeCalculate solverFireFail reqStd =
      HttpResult.error 400 ("Calculation error: " ++ "OutOfRangeError: time step underflow") :=
  (C10_error_channel solverFireFail reqStd (by norm_num [reqStd, MAX_RANGE_YARDS])
      (by norm_num [reqStd, MAX_STEP_SIZE])).1
    "OutOfRangeError: time step underflow" (Or.inr ⟨2, rfl, rfl⟩)

end BallisticCalc
